import Mathlib

/-!
Verification of the Smart Expense Tracker analytics layer
(src/app.py and src/database.py), shallowly embedded in Lean 4.

Conventions of the embedding:
* Python floats are modelled as exact rationals (`ℚ`); the literals `0.3`
  and `0.1` in the source become `3/10` and `1/10`.
* `round(x, 2)` and the `:.2f` format are modelled with `round` (half-up);
  Python's half-to-even tie handling differs only at exact half-cent
  boundaries, which none of the specified values hit.
* Dates are ISO-8601 strings.  SQLite compares the TEXT column by byte
  order and Python compares parsed datetimes; for canonical fixed-width
  ISO timestamps both coincide with lexicographic character order, which
  is what `listLt` implements.
* Core `String` operations (`<`, `toLower`) do not reduce in the kernel,
  so the comparisons and lowercasing are implemented over `String.data`
  (`List Char`) with the same semantics.
* `statistics.stdev` is a square root; to keep the anomaly test inside ℚ
  the comparison `amount > mean + 2*stdev` is expressed in the equivalent
  squared form (see `isAnomalous`), and `isAnomalous_iff_sqrt` proves the
  equivalence with the literal `Real.sqrt` reading.
* The SQLite ledger becomes a `DB` structure: the expenses table in
  insertion order, the AUTOINCREMENT counter, and the budgets table as an
  association list keyed by category.
-/

namespace ExpenseTracker

/- ===== numeric helpers (the `statistics` module and Python rounding) ===== -/

/-- Round a rational to 2 decimal places: Python `round(x, 2)` on the
exact value (ties half-up instead of half-even, see module comment). -/
def round2 (q : ℚ) : ℚ := (round (q * 100) : ℤ) / 100

/-- Round a rational to 1 decimal place: Python `round(x, 1)`. -/
def round1 (q : ℚ) : ℚ := (round (q * 10) : ℤ) / 10

/-- `statistics.mean`: sum divided by length (0 on `[]`, which the
source never reaches thanks to its guards). -/
def mean (l : List ℚ) : ℚ := l.sum / l.length

/-- Bessel-corrected sample variance, the square of `statistics.stdev`
(0 when fewer than two samples, matching the source's
`stdev = ... if len(amounts) > 1 else 0` guard in `detect_anomalies`). -/
def sampleVar (l : List ℚ) : ℚ :=
  if l.length ≤ 1 then 0
  else (l.map (fun a => (a - mean l) ^ 2)).sum / (l.length - 1 : ℕ)

/- ===== character-list string helpers ===== -/

/-- Lexicographic strict order on character lists by code point; agrees
with SQLite TEXT ordering and with chronological order on canonical
ISO-8601 timestamps. -/
def listLt : List Char → List Char → Bool
  | [], [] => false
  | [], _ :: _ => true
  | _ :: _, [] => false
  | a :: as, b :: bs =>
    if a.toNat < b.toNat then true
    else if b.toNat < a.toNat then false
    else listLt as bs

/-- `a` comes strictly before `b` as a date string. -/
def strLtB (a b : String) : Bool := listLt a.data b.data

/-- `a ≤ b` as date strings (SQLite `date >= ?` filters use its negation). -/
def strLeB (a b : String) : Bool := !(listLt b.data a.data)

/-- Does `hay` start with `needle`? -/
def leadsChars : List Char → List Char → Bool
  | [], _ => true
  | _ :: _, [] => false
  | a :: as, b :: bs => a == b && leadsChars as bs

/-- Does `needle` occur contiguously inside the second list?  This is
Python's `needle in hay` on strings. -/
def occursIn (needle : List Char) : List Char → Bool
  | [] => leadsChars needle []
  | c :: rest => leadsChars needle (c :: rest) || occursIn needle rest

/-- Python `keyword in description`: substring containment. -/
def strContainsSub (hay needle : String) : Bool := occursIn needle.data hay.data

/-- Python `str.lower()` (ASCII range; every keyword and every input the
claims mention is ASCII). -/
def lowerStr (s : String) : String := ⟨s.data.map Char.toLower⟩

/-- Two-digit zero-padded rendering of `n < 100`. -/
def pad2 (n : ℕ) : String := if n < 10 then "0" ++ toString n else toString n

/-- Python `f"{q:.2f}"` on the exact value: fixed two decimal places. -/
def fmt2 (q : ℚ) : String :=
  let c : ℤ := round (q * 100)
  (if c < 0 then "-" else "") ++ toString (c.natAbs / 100) ++ "." ++ pad2 (c.natAbs % 100)

/- ===== data model (the SQLite schema of src/database.py) ===== -/

/-- One row of the `expenses` table. -/
structure Expense where
  id : ℕ
  amount : ℚ
  description : String
  category : String
  date : String
  notes : String
  created_at : String
deriving DecidableEq

/-- The database state: `expenses` in insertion order, the AUTOINCREMENT
counter (`sqlite_sequence` value; the next row gets id `seq + 1`), and the
`budgets` table keyed by category. -/
structure DB where
  expenses : List Expense
  seq : ℕ
  budgets : List (String × ℚ)

/-- `get_budget` (src/database.py lines 183-192). -/
def get_budget (db : DB) (category : String) : Option ℚ :=
  db.budgets.lookup category

/-- Does the expense pass the optional category/date filters used by
`get_all_expenses` and `get_total_spent`?  SQLite string comparison is
`strLeB`. -/
def matchesFilters (category startDate endDate : Option String) (e : Expense) : Bool :=
  (match category with | some c => e.category = c | none => true) &&
  (match startDate with | some s => strLeB s e.date | none => true) &&
  (match endDate with | some t => strLeB e.date t | none => true)

/-- `get_total_spent` (src/database.py lines 210-233): the filtered SUM,
with SQL NULL coalesced to 0 (`result['total'] or 0.0`). -/
def get_total_spent (db : DB) (category startDate endDate : Option String) : ℚ :=
  ((db.expenses.filter (matchesFilters category startDate endDate)).map (·.amount)).sum

/-- `add_expense` (src/database.py lines 68-88): a missing date defaults
to `datetime.now().isoformat()`; the row id is the next AUTOINCREMENT
value. -/
def db_add_expense (db : DB) (amount : ℚ) (description category : String)
    (date : Option String) (notes : String) (nowIso : String) : Expense × DB :=
  let exp : Expense :=
    ⟨db.seq + 1, amount, description, category, date.getD nowIso, notes, nowIso⟩
  (exp, ⟨db.expenses ++ [exp], db.seq + 1, db.budgets⟩)

/-- `delete_all_expenses` (src/database.py lines 137-147): clears the
`expenses` table, resets the AUTOINCREMENT counter by deleting the
`sqlite_sequence` row, returns the deleted count, and touches nothing
else — in particular not the `budgets` table. -/
def delete_all_expenses (db : DB) : ℕ × DB :=
  (db.expenses.length, ⟨[], 0, db.budgets⟩)

/- ===== Categorizer (src/app.py lines 36-57) ===== -/

/-- `CATEGORY_KEYWORDS` (src/app.py lines 36-44), in the dict's insertion
order, which is the iteration order Python guarantees. -/
def CATEGORY_KEYWORDS : List (String × List String) :=
  [("food", ["restaurant", "cafe", "food", "pizza", "burger", "lunch", "dinner",
             "breakfast", "starbucks", "mcdonalds", "subway", "kfc"]),
   ("transport", ["uber", "lyft", "gas", "fuel", "parking", "taxi", "metro",
                  "bus", "train", "ola"]),
   ("shopping", ["amazon", "walmart", "target", "mall", "store", "shop",
                 "clothing", "shoes", "flipkart"]),
   ("entertainment", ["netflix", "spotify", "movie", "cinema", "game",
                      "concert", "theater", "prime"]),
   ("utilities", ["electricity", "water", "internet", "phone", "wifi", "bill"]),
   ("health", ["pharmacy", "hospital", "doctor", "medical", "gym", "fitness",
               "medicine"]),
   ("education", ["book", "course", "tuition", "school", "university",
                  "training", "udemy"])]

/-- `smart_categorize` (src/app.py lines 48-57): lowercase the
description, walk the categories in declaration order, return the first
one with a keyword occurring as a substring, else `"other"`.  The nested
for loops with an early return are exactly a first-match search. -/
def smart_categorize (description : String) : String :=
  let dl := lowerStr description
  match CATEGORY_KEYWORDS.find? (fun ck => ck.2.any (fun kw => strContainsSub dl kw)) with
  | some ck => ck.1
  | none => "other"

/- ===== Trend Estimator (src/app.py lines 59-79) ===== -/

/-- `predict_next_month_spending` (src/app.py lines 59-79), applied to
the monthly totals most-recent month first, as `get_monthly_spending`
returns them (ordered by month descending). -/
def predict_next_month_spending (totals : List ℚ) : ℚ :=
  if totals = [] then 0
  else if totals.length < 2 then totals.headD 0
  else
    let avg := mean totals
    if 3 ≤ totals.length then
      let recent_avg := mean (totals.take 3)
      let trend := (recent_avg - avg) * (3 / 10)
      round2 (avg + trend)
    else
      round2 avg

/- ===== Anomaly Detector (src/app.py lines 81-100) ===== -/

/-- A flagged item, as the dicts appended in `detect_anomalies`. -/
structure Anomaly where
  expense : Expense
  reason : String
deriving DecidableEq

/-- The f-string `f"Unusually high amount (${...:.2f} vs average ${...:.2f})"`. -/
def anomalyReason (amount m : ℚ) : String :=
  "Unusually high amount ($" ++ fmt2 amount ++ " vs average $" ++ fmt2 m ++ ")"

/-- The flag test `stdev > 0 and exp['amount'] > mean + (2 * stdev)`,
where `stdev = Real.sqrt v` and `v` is the sample variance, written in
the equivalent square-free form so it stays in ℚ: over nonnegative
quantities, `amount - mean > 2·√v` iff `amount > mean` and
`(amount - mean)² > 4v`, and `stdev > 0` iff `v > 0`
(`isAnomalous_iff_sqrt` below proves this). -/
def isAnomalous (amount m v : ℚ) : Bool :=
  decide (0 < v) && decide (m < amount) && decide (4 * v < (amount - m) ^ 2)

/-- `detect_anomalies` (src/app.py lines 81-100) on the fetched ledger
(`get_all_expenses()` output, most-recent date first).  Mean and sample
standard deviation range over all amounts; only the first 20 rows are
scanned; the for loop appending matching rows is a `filterMap`. -/
def detect_anomalies (expenses : List Expense) : List Anomaly :=
  if expenses.length < 10 then []
  else
    let amounts := expenses.map (·.amount)
    let m := mean amounts
    let v := sampleVar amounts
    (expenses.take 20).filterMap (fun exp =>
      if isAnomalous exp.amount m v then some ⟨exp, anomalyReason exp.amount m⟩
      else none)

/- ===== Insight Generator (src/app.py lines 102-152) ===== -/

/-- The first keys of a grouped query, first occurrence kept.  SQLite's
`GROUP BY category ORDER BY total DESC` presents the same key set; only
the key order differs, which no theorem below depends on (ties for the
top category are left unspecified by SQL itself). -/
def firstKeys : List String → List String
  | [] => []
  | c :: rest => c :: (firstKeys rest).filter (fun k => k ≠ c)

/-- Total amount of the expenses in one category. -/
def catTotal (es : List Expense) (c : String) : ℚ :=
  ((es.filter (fun e => e.category = c)).map (·.amount)).sum

/-- `get_spending_by_category` (src/database.py lines 235-252), reduced
to the per-category totals that `generate_insights` consumes. -/
def spendingByCategory (es : List Expense) : List (String × ℚ) :=
  (firstKeys (es.map (·.category))).map (fun c => (c, catTotal es c))

/-- Python `max(items, key=total)`: the first entry attaining the
maximal total. -/
def maxByTotal : List (String × ℚ) → Option (String × ℚ)
  | [] => none
  | p :: rest => some (rest.foldl (fun best q => if best.2 < q.2 then q else best) p)

/-- One insight, carrying its `type` tag and the numbers the `message`
f-string interpolates. -/
inductive Insight
  | category_insight (name : String) (amount percentage : ℚ)
  | trend (weekTotal dailyAvg : ℚ)
  | savings (potential : ℚ)
deriving DecidableEq

/-- Position of an insight's type in the source's fixed emission order
(top category, then weekly trend, then savings suggestion). -/
def insightRank : Insight → ℕ
  | .category_insight _ _ _ => 0
  | .trend _ _ => 1
  | .savings _ => 2

/-- `generate_insights` (src/app.py lines 102-152).  `weekAgo` is the ISO
timestamp of `datetime.now() - timedelta(days=7)`; the recency test
`fromisoformat(date) > now - 7 days` is the string comparison (see module
comment).  `0.1` is the exact `1/10`. -/
def generate_insights (es : List Expense) (weekAgo : String) : List Insight :=
  if es = [] then []
  else
    let catTotals := spendingByCategory es
    let total_spent := (catTotals.map (·.2)).sum
    let top : List Insight :=
      match maxByTotal catTotals with
      | some nt => [.category_insight nt.1 nt.2 (nt.2 / total_spent * 100)]
      | none => []
    let recent := es.filter (fun e => strLtB weekAgo e.date)
    let trendPart : List Insight :=
      if recent = [] then []
      else
        let recent_total := (recent.map (·.amount)).sum
        [.trend recent_total (recent_total / 7)]
    let savingsPart : List Insight :=
      if 5 < es.length then
        [.savings (mean (es.map (·.amount)) * (1 / 10) * 30)]
      else []
    top ++ trendPart ++ savingsPart

/- ===== Budget Evaluator (src/app.py lines 214-226 and 386-415) ===== -/

/-- The insert-time alert dict: its level plus the numbers interpolated
into the `message` f-string. -/
structure BudgetAlert where
  level : String
  percentage : ℚ
  categoryTotal : ℚ
  budget : ℚ
deriving DecidableEq

/-- The insert-time budget check (src/app.py lines 214-226).  `if budget:`
is Python truthiness, so both an absent budget row (`None`) and a 0.0
ceiling skip the check — the division is never reached with a zero
divisor. -/
def budgetAlertCheck (budget : Option ℚ) (categoryTotal : ℚ) : Option BudgetAlert :=
  match budget with
  | none => none
  | some b =>
    if b = 0 then none
    else
      let percentage := categoryTotal / b * 100
      if 90 ≤ percentage then
        some ⟨if 100 ≤ percentage then "critical" else "warning",
              percentage, categoryTotal, b⟩
      else none

/-- One value of the `/budget-status` response dict. -/
structure BudgetStatusEntry where
  budget : ℚ
  spent : ℚ
  remaining : ℚ
  percentage : ℚ
  status : String
deriving DecidableEq

/-- One category's entry in `get_budget_status` (src/app.py lines
399-410): current-month spend (date ≥ first of the month), guarded
percentage, and the three-band classification.  Note the band test uses
the unrounded percentage; only the displayed `percentage` field is
rounded. -/
def statusEntry (db : DB) (month : String) (category : String) (b : ℚ) : BudgetStatusEntry :=
  let spent := get_total_spent db (some category) (some (month ++ "-01")) none
  let percentage := if 0 < b then spent / b * 100 else 0
  let remaining := b - spent
  ⟨b, round2 spent, round2 remaining, round1 percentage,
   if 100 < percentage then "exceeded" else if 80 < percentage then "warning" else "good"⟩

/-- `get_budget_status` (src/app.py lines 386-415): one entry per
configured budget, keyed by category. -/
def get_budget_status (db : DB) (month : String) : List (String × BudgetStatusEntry) :=
  db.budgets.map (fun cb => (cb.1, statusEntry db month cb.1 cb.2))

/- ===== the POST /expense route (src/app.py lines 190-233) ===== -/

/-- A JSON value as decoded by `request.get_json()`.  Array and object
payloads are irrelevant to the handler (they only ever feed `float`,
which rejects both), so they are opaque here. -/
inductive JVal
  | jnull
  | jbool (b : Bool)
  | jnum (q : ℚ)
  | jstr (s : String)
  | jarr
  | jobj
deriving DecidableEq

/-- The Python exceptions the handler can produce. -/
inductive PyErr
  | typeError
  | valueError
  | attributeError
deriving DecidableEq

/-- Python truthiness of a JSON-decoded value, used by
`data.get('category') or smart_categorize(...)`.  (The opaque composites
are treated as truthy; an empty array/object never reaches this test in
any theorem below.) -/
def jTruthy : JVal → Bool
  | .jnull => false
  | .jbool b => b
  | .jnum q => decide (q ≠ 0)
  | .jstr s => decide (s ≠ "")
  | .jarr => true
  | .jobj => true

/-- A digit character? -/
def isDigitCh (c : Char) : Bool := 48 ≤ c.toNat && c.toNat ≤ 57

/-- Numeric value of a digit list. -/
def digitsVal (l : List Char) : ℕ := l.foldl (fun acc c => 10 * acc + (c.toNat - 48)) 0

/-- The unsigned part of Python's `float(string)` parser: digits with an
optional fraction.  (Exponents, `inf`/`nan` and surrounding whitespace,
which Python also accepts, are outside the inputs any claim mentions.) -/
def parseUnsignedFloat : List Char → Option ℚ
  | l =>
    let intPart := l.takeWhile isDigitCh
    let rest := l.dropWhile isDigitCh
    match rest with
    | [] => if intPart = [] then none else some (digitsVal intPart)
    | '.' :: frac =>
      if frac.all isDigitCh && !(intPart = [] && frac = []) then
        some ((digitsVal intPart : ℚ) + (digitsVal frac : ℚ) / (10 ^ frac.length))
      else none
    | _ => none

/-- Python `float(string)` with an optional sign; `none` is a ValueError. -/
def parseFloat (s : String) : Option ℚ :=
  match s.data with
  | '-' :: rest => (parseUnsignedFloat rest).map (fun q => -q)
  | '+' :: rest => parseUnsignedFloat rest
  | l => parseUnsignedFloat l

/-- Python `float(x)` applied to a JSON-decoded value: numbers pass
through, booleans convert (bool is a numeric type in Python), strings are
parsed (ValueError when unparsable), and null / arrays / objects raise
TypeError — which the handler's `except ValueError` does NOT catch. -/
def pyFloat : JVal → Except PyErr ℚ
  | .jnum q => .ok q
  | .jbool b => .ok (if b then 1 else 0)
  | .jstr s =>
    match parseFloat s with
    | some q => .ok q
    | none => .error .valueError
  | .jnull => .error .typeError
  | .jarr => .error .typeError
  | .jobj => .error .typeError

/-- Text content of a JSON value where the handler expects a string.
Non-string values here are outside the modelled domain (SQLite would
adapt them on insert); no theorem below exercises that corner. -/
def jText : JVal → String
  | .jstr s => s
  | _ => ""

/-- `data.get('category')` filtered through Python truthiness: the
explicit category the request supplies, if any (the `or` in
`data.get('category') or smart_categorize(description)` discards falsy
values such as `None` and `""`). -/
def categoryArg (d : List (String × JVal)) : Option JVal :=
  match d.lookup "category" with
  | some v => if jTruthy v then some v else none
  | none => none

/-- The outcome of `POST /expense`: a 400 rejection with its error
payload, a 201 creation, or an uncaught Python exception (Flask turns it
into a 500 response). -/
inductive RouteResult
  | badRequest (error : String)
  | created (expense : Expense) (auto_categorized : Bool) (alert : Option BudgetAlert)
  | pyError (e : PyErr)
deriving DecidableEq

/-- The `add_expense` route (src/app.py lines 190-233).  `data` is the
decoded JSON body (`none` when `get_json` yields `None`); an empty object
is falsy, so both fail the `if not data` test.  Validation happens before
the insert, so every rejecting branch returns the database unchanged.
Only `ValueError` is caught around `float(data['amount'])`: a `TypeError`
(null / array / object amount) propagates.  A non-string description only
crashes `smart_categorize` (`.lower()` → AttributeError) when no truthy
category was supplied. -/
def add_expense_route (db : DB) (nowIso : String) (data : Option (List (String × JVal))) :
    RouteResult × DB :=
  match data with
  | none => (.badRequest "Amount and description are required", db)
  | some d =>
    if d = [] ∨ (d.lookup "amount").isNone ∨ (d.lookup "description").isNone then
      (.badRequest "Amount and description are required", db)
    else
      match pyFloat ((d.lookup "amount").getD .jnull) with
      | .error .valueError => (.badRequest "Invalid amount format", db)
      | .error e => (.pyError e, db)
      | .ok amount =>
        if amount ≤ 0 then (.badRequest "Amount must be positive", db)
        else
          let descVal := (d.lookup "description").getD .jnull
          let notes : String :=
            match d.lookup "notes" with
            | some v => jText v
            | none => ""
          let date : Option String :=
            match d.lookup "date" with
            | some (.jstr s) => some s
            | _ => none
          match categoryArg d with
          | some cv =>
            let category := jText cv
            let pr := db_add_expense db amount (jText descVal) category date notes nowIso
            (.created pr.1 false (budgetAlertCheck (get_budget pr.2 category)
              (get_total_spent pr.2 (some category) none none)), pr.2)
          | none =>
            match descVal with
            | .jstr ds =>
              let category := smart_categorize ds
              let pr := db_add_expense db amount ds category date notes nowIso
              (.created pr.1 true (budgetAlertCheck (get_budget pr.2 category)
                (get_total_spent pr.2 (some category) none none)), pr.2)
            | _ => (.pyError .attributeError, db)

/- ===== concrete fixtures used by witnesses and counterexamples ===== -/

/-- A minimal expense row for concrete datasets. -/
def mkExp (id : ℕ) (amount : ℚ) (date : String) : Expense :=
  ⟨id, amount, "x", "other", date, "", date⟩

/-- A September food expense (outside the October status window). -/
def sepExp : Expense := ⟨1, 50, "x", "food", "2026-09-15", "", "2026-09-15"⟩

/-- An October food expense (inside the October status window). -/
def octExp : Expense := ⟨2, 90, "x", "food", "2026-10-05", "", "2026-10-05"⟩

/-- A ledger with one food budget and spending in two months. -/
def statusDB : DB := ⟨[sepExp, octExp], 2, [("food", 100)]⟩

/-- Ten expenses (most-recent first) whose amounts have mean 20 and
Bessel-corrected sample variance 36 (stdev 6); the most recent amount,
32, sits exactly at mean + 2·stdev. -/
def borderlineExpenses : List Expense :=
  [mkExp 1 32 "2026-10-10", mkExp 2 8 "2026-10-09",
   mkExp 3 23 "2026-10-08", mkExp 4 17 "2026-10-07",
   mkExp 5 23 "2026-10-06", mkExp 6 17 "2026-10-05",
   mkExp 7 20 "2026-10-04", mkExp 8 20 "2026-10-03",
   mkExp 9 20 "2026-10-02", mkExp 10 20 "2026-10-01"]

/-- Ten expenses (most-recent first): one 100 outlier against nine 10s
(mean 19, sample variance 810). -/
def outlierExpenses : List Expense :=
  [mkExp 1 100 "2026-10-10", mkExp 2 10 "2026-10-09",
   mkExp 3 10 "2026-10-08", mkExp 4 10 "2026-10-07",
   mkExp 5 10 "2026-10-06", mkExp 6 10 "2026-10-05",
   mkExp 7 10 "2026-10-04", mkExp 8 10 "2026-10-03",
   mkExp 9 10 "2026-10-02", mkExp 10 10 "2026-10-01"]

/-- Six expenses, all dated after 2026-10-05. -/
def sixExpenses : List Expense :=
  [mkExp 1 10 "2026-10-10", mkExp 2 20 "2026-10-09", mkExp 3 30 "2026-10-08",
   mkExp 4 40 "2026-10-07", mkExp 5 50 "2026-10-06", mkExp 6 60 "2026-10-06"]

end ExpenseTracker

namespace ExpenseTracker

/- ===== theorems ===== -/

/-- C1: `predict_next_month_spending` returns 0 on no history, the single
month's total on one month, the 2-dp-rounded mean on two months, and the
2-dp-rounded `avg + (recent_avg - avg) * 0.3` on three or more months
(where `recent_avg` is the mean of the three most-recent months); in
particular the five forecasts the spec lists. -/
theorem C1_predict_next_month_spending :
    (∀ totals : List ℚ,
      (totals = [] → predict_next_month_spending totals = 0) ∧
      (totals.length = 1 → predict_next_month_spending totals = totals.headD 0) ∧
      (totals.length = 2 → predict_next_month_spending totals = round2 (mean totals)) ∧
      (3 ≤ totals.length →
        predict_next_month_spending totals =
          round2 (mean totals + (mean (totals.take 3) - mean totals) * (3 / 10)))) ∧
    predict_next_month_spending [] = 0 ∧
    predict_next_month_spending [100] = 100 ∧
    predict_next_month_spending [100, 200] = 150 ∧
    predict_next_month_spending [300, 200, 100] = 200 ∧
    predict_next_month_spending [100, 50, 200, 300] = 148.75 := by
  refine ⟨fun totals => ⟨?_, ?_, ?_, ?_⟩, ?_, ?_, ?_, ?_, ?_⟩
  · intro h; simp [predict_next_month_spending, h]
  · intro h
    have hne : totals ≠ [] := by intro hh; simp [hh] at h
    simp [predict_next_month_spending, hne, h]
  · intro h
    have hne : totals ≠ [] := by intro hh; simp [hh] at h
    simp [predict_next_month_spending, hne, h]
  · intro h
    have hne : totals ≠ [] := by
      intro hh; rw [hh] at h; simp at h
    have h2 : ¬ totals.length < 2 := by omega
    simp [predict_next_month_spending, hne, h2, h]
  · rfl
  · norm_num [predict_next_month_spending]
  · norm_num [predict_next_month_spending, mean, round2, round_eq, List.cons_ne_nil]
  · norm_num [predict_next_month_spending, mean, round2, round_eq, List.cons_ne_nil]
  · norm_num [predict_next_month_spending, mean, round2, round_eq, List.cons_ne_nil]

/-- Witness for C1: the three-or-more-months branch at `[300, 200, 100]`. -/
theorem C1_predict_next_month_spending_witness :
    predict_next_month_spending [300, 200, 100] =
      round2 (mean [300, 200, 100] +
        (mean ([300, 200, 100].take 3) - mean [300, 200, 100]) * (3 / 10)) :=
  (C1_predict_next_month_spending.1 [300, 200, 100]).2.2.2 (by norm_num)

/-- C3: with fewer than 10 expenses in the ledger, `detect_anomalies`
returns the empty list whatever the amounts are. -/
theorem C3_detect_anomalies_insufficient (es : List Expense) (h : es.length < 10) :
    detect_anomalies es = [] := by
  simp [detect_anomalies, h]

/-- Witness for C3: a 3-row ledger, one amount wildly larger. -/
theorem C3_detect_anomalies_insufficient_witness :
    detect_anomalies [mkExp 1 1000000 "2026-10-10", mkExp 2 1 "2026-10-09",
      mkExp 3 1 "2026-10-08"] = [] :=
  C3_detect_anomalies_insufficient _ (by decide)

/-- C4: the insert-time check uses `percentage = total / ceiling * 100`
over the category's all-time spend; below 90 no alert, `warning` on
[90, 100), `critical` at ≥ 100; an absent or nonpositive ceiling yields
no alert and never divides by zero (the `if budget:` truthiness guard
skips `None` and `0.0`, and a negative ceiling makes the percentage
nonpositive for a nonnegative spend). -/
theorem C4_insert_time_budget_check (total : ℚ) :
    budgetAlertCheck none total = none ∧
    (∀ b : ℚ, b ≤ 0 → 0 ≤ total → budgetAlertCheck (some b) total = none) ∧
    (∀ b : ℚ, b ≠ 0 →
      (total / b * 100 < 90 → budgetAlertCheck (some b) total = none) ∧
      (90 ≤ total / b * 100 → total / b * 100 < 100 →
        budgetAlertCheck (some b) total =
          some ⟨"warning", total / b * 100, total, b⟩) ∧
      (100 ≤ total / b * 100 →
        budgetAlertCheck (some b) total =
          some ⟨"critical", total / b * 100, total, b⟩)) := by
  refine ⟨rfl, ?_, ?_⟩
  · intro b hb ht
    rcases eq_or_lt_of_le hb with h0 | hneg
    · simp [budgetAlertCheck, ← h0]
    · have hb0 : b ≠ 0 := ne_of_lt hneg
      have hp : total / b * 100 ≤ 0 := by
        have : total / b ≤ 0 := div_nonpos_of_nonneg_of_nonpos ht (le_of_lt hneg)
        nlinarith
      simp only [budgetAlertCheck, if_neg hb0]
      rw [if_neg (by linarith)]
  · intro b hb0
    refine ⟨?_, ?_, ?_⟩
    · intro h
      simp only [budgetAlertCheck, if_neg hb0]
      rw [if_neg (by linarith)]
    · intro h90 h100
      simp only [budgetAlertCheck, if_neg hb0]
      rw [if_pos h90, if_neg (by linarith)]
    · intro h100
      simp only [budgetAlertCheck, if_neg hb0]
      rw [if_pos (by linarith), if_pos h100]

/-- Witness for C4: ceiling 200, spend 190 — 95%, a `warning`. -/
theorem C4_insert_time_budget_check_witness :
    budgetAlertCheck (some 200) 190 = some ⟨"warning", 190 / 200 * 100, 190, 200⟩ :=
  (((C4_insert_time_budget_check 190).2.2 200 (by norm_num)).2.1 (by norm_num) (by norm_num))

/-- C5: each configured budget's status entry classifies the current
month's spend-to-date (expenses of the category dated on or after the
first of the month — not the all-time spend) into `good` (≤ 80%),
`warning` (80% < p ≤ 100%), `exceeded` (> 100%), with the percentage
taken as 0 when the ceiling is nonpositive. -/
theorem C5_budget_status (db : DB) (month category : String) (b : ℚ)
    (hmem : (category, b) ∈ db.budgets) :
    (category, statusEntry db month category b) ∈ get_budget_status db month ∧
    (statusEntry db month category b).spent =
      round2 (get_total_spent db (some category) (some (month ++ "-01")) none) ∧
    (b ≤ 0 →
      (if 0 < b then
        get_total_spent db (some category) (some (month ++ "-01")) none / b * 100
      else 0) = 0) ∧
    (∀ percentage : ℚ,
      percentage =
        (if 0 < b then
          get_total_spent db (some category) (some (month ++ "-01")) none / b * 100
        else 0) →
      (percentage ≤ 80 → (statusEntry db month category b).status = "good") ∧
      (80 < percentage → percentage ≤ 100 →
        (statusEntry db month category b).status = "warning") ∧
      (100 < percentage → (statusEntry db month category b).status = "exceeded")) := by
  refine ⟨?_, rfl, ?_, ?_⟩
  · exact List.mem_map.mpr ⟨(category, b), hmem, rfl⟩
  · intro hb
    rw [if_neg (by linarith)]
  · intro percentage hp
    subst hp
    refine ⟨?_, ?_, ?_⟩
    · intro h80
      simp only [statusEntry]
      rw [if_neg (by linarith), if_neg (by linarith)]
    · intro h80 h100
      simp only [statusEntry]
      rw [if_neg (by linarith), if_pos h80]
    · intro h100
      simp only [statusEntry]
      rw [if_pos h100]

/-- Witness for C5: a 100 ceiling on food, 50 spent in September and 90
in October; the October status uses only the 90 and lands on `warning`. -/
theorem C5_budget_status_witness :
    ("food", statusEntry statusDB "2026-10" "food" 100) ∈ get_budget_status statusDB "2026-10" ∧
    (statusEntry statusDB "2026-10" "food" 100).status = "warning" := by
  have h := C5_budget_status statusDB "2026-10" "food" 100 (by decide)
  have hfilter : List.filter (matchesFilters (some "food") (some ("2026-10" ++ "-01")) none)
      statusDB.expenses = [octExp] := by decide
  have hspent : get_total_spent statusDB (some "food") (some ("2026-10" ++ "-01")) none = 90 := by
    unfold get_total_spent
    rw [hfilter]
    norm_num [octExp]
  refine ⟨h.1, ?_⟩
  refine (h.2.2.2 _ rfl).2.1 ?_ ?_ <;> rw [hspent] <;> norm_num

end ExpenseTracker

namespace ExpenseTracker

/-- Appending a row of the same category adds exactly its amount to the
unfiltered category total. -/
theorem total_spent_snoc (es : List Expense) (s s' : ℕ) (bud : List (String × ℚ))
    (e : Expense) :
    get_total_spent ⟨es ++ [e], s', bud⟩ (some e.category) none none =
      get_total_spent ⟨es, s, bud⟩ (some e.category) none none + e.amount := by
  simp [get_total_spent, matchesFilters, List.filter_append]

/-- C10: whenever `POST /expense` accepts an insert, the ledger gains
exactly the new row and the budget alert is computed from the category's
total AFTER the insert — the ceiling is compared against the old spend
plus the new expense's own amount. -/
theorem C10_insert_time_total_includes_new (db : DB) (nowIso : String)
    (data : Option (List (String × JVal))) (exp : Expense) (auto : Bool)
    (alert : Option BudgetAlert) (db' : DB)
    (h : add_expense_route db nowIso data = (.created exp auto alert, db')) :
    db'.expenses = db.expenses ++ [exp] ∧
    alert = budgetAlertCheck (get_budget db exp.category)
      (get_total_spent db (some exp.category) none none + exp.amount) := by
  unfold add_expense_route at h
  split at h
  · simp at h
  next d =>
    split at h
    · simp at h
    · split at h
      · simp at h
      · simp at h
      next amount heq =>
        split at h
        · simp at h
        · rcases hc : categoryArg d with _ | cv
          · rw [hc] at h
            rcases hdv : (List.lookup "description" d).getD JVal.jnull with _ | b | q | ds | _ | _ <;>
              rw [hdv] at h <;>
              simp only [Prod.mk.injEq, RouteResult.created.injEq, reduceCtorEq,
                false_and, and_false] at h
            obtain ⟨⟨hexp, -, halert⟩, hdb⟩ := h
            subst hexp; subst hdb; subst halert
            refine ⟨rfl, ?_⟩
            simp [db_add_expense, get_budget, get_total_spent, matchesFilters,
              List.filter_append]
          · rw [hc] at h
            simp only [Prod.mk.injEq, RouteResult.created.injEq] at h
            obtain ⟨⟨hexp, -, halert⟩, hdb⟩ := h
            subst hexp; subst hdb; subst halert
            refine ⟨rfl, ?_⟩
            simp [db_add_expense, get_budget, get_total_spent, matchesFilters,
              List.filter_append]

/-- Witness for C10: an accepted 5-dollar expense on an empty ledger with
no budgets; the post-insert total (0 + 5) feeds the check. -/
theorem C10_insert_time_total_includes_new_witness :
    (⟨[⟨1, 5, "xyz", "other", "2026-10-12T00:00:00", "", "2026-10-12T00:00:00"⟩], 1, []⟩ :
        DB).expenses =
      (⟨[], 0, []⟩ : DB).expenses ++
        [⟨1, 5, "xyz", "other", "2026-10-12T00:00:00", "", "2026-10-12T00:00:00"⟩] ∧
    (none : Option BudgetAlert) = budgetAlertCheck (get_budget ⟨[], 0, []⟩ "other")
      (get_total_spent ⟨[], 0, []⟩ (some "other") none none + 5) :=
  C10_insert_time_total_includes_new ⟨[], 0, []⟩ "2026-10-12T00:00:00"
    (some [("amount", JVal.jnum 5), ("description", JVal.jstr "xyz")])
    ⟨1, 5, "xyz", "other", "2026-10-12T00:00:00", "", "2026-10-12T00:00:00"⟩ true none
    ⟨[⟨1, 5, "xyz", "other", "2026-10-12T00:00:00", "", "2026-10-12T00:00:00"⟩], 1, []⟩ rfl

/-- C9: `delete_all_expenses` clears the expenses table and the
AUTOINCREMENT counter, reports the deleted count, and leaves the budgets
table — hence every readable ceiling — unchanged. -/
theorem C9_delete_all_preserves_budgets (db : DB) :
    (∀ category, get_budget (delete_all_expenses db).2 category = get_budget db category) ∧
    (delete_all_expenses db).2.budgets = db.budgets ∧
    (delete_all_expenses db).2.expenses = [] ∧
    (delete_all_expenses db).2.seq = 0 ∧
    (delete_all_expenses db).1 = db.expenses.length := by
  simp [delete_all_expenses, get_budget]

end ExpenseTracker

namespace ExpenseTracker

/-- `List.find?` returns the element at the first index where the
predicate holds. -/
theorem find?_eq_get_of_first {α : Type} (p : α → Bool) (l : List α) (i : ℕ)
    (h : i < l.length) (hi : p (l.get ⟨i, h⟩) = true)
    (hbefore : ∀ j (hj : j < i), p (l.get ⟨j, Nat.lt_trans hj h⟩) = false) :
    l.find? p = some (l.get ⟨i, h⟩) := by
  induction l generalizing i with
  | nil => exact absurd h (Nat.not_lt_zero i)
  | cons x xs ih =>
    cases i with
    | zero => simp only [List.get] at hi ⊢; rw [List.find?_cons_of_pos _ hi]
    | succ n =>
      have hx : p x = false := hbefore 0 (Nat.succ_pos n)
      rw [List.find?_cons_of_neg _ (by simp [hx])]
      exact ih n (Nat.lt_of_succ_lt_succ h) hi
        (fun j hj => hbefore (j + 1) (Nat.succ_lt_succ hj))

/-- C6: `smart_categorize` lowercases the description and returns the
first category, in the declared order food, transport, shopping,
entertainment, utilities, health, education, one of whose keywords is a
substring of the lowercased description; `"other"` when no keyword
occurs.  First match wins by category order, not by longest match, as the
concrete cross-category examples show.  (The Lean function is pure by
construction, matching the claim's no-side-effects part.) -/
theorem C6_smart_categorize :
    (∀ description : String,
      ((∀ ck ∈ CATEGORY_KEYWORDS, ∀ kw ∈ ck.2,
          strContainsSub (lowerStr description) kw = false) →
        smart_categorize description = "other") ∧
      (∀ i : ℕ, ∀ h : i < CATEGORY_KEYWORDS.length,
        (∃ kw ∈ (CATEGORY_KEYWORDS.get ⟨i, h⟩).2,
          strContainsSub (lowerStr description) kw = true) →
        (∀ j : ℕ, ∀ hj : j < i, ∀ kw ∈ (CATEGORY_KEYWORDS.get ⟨j, Nat.lt_trans hj h⟩).2,
          strContainsSub (lowerStr description) kw = false) →
        smart_categorize description = (CATEGORY_KEYWORDS.get ⟨i, h⟩).1)) ∧
    smart_categorize "Dinner at Zanzibar" = "food" ∧
    smart_categorize "book a taxi" = "transport" ∧
    smart_categorize "Gas station STORE" = "transport" ∧
    smart_categorize "zzz" = "other" := by
  refine ⟨fun description => ⟨?_, ?_⟩, by decide, by decide, by decide, by decide⟩
  · intro hnone
    have hfind : List.find?
        (fun ck => ck.2.any fun kw => strContainsSub (lowerStr description) kw)
        CATEGORY_KEYWORDS = none := by
      rw [List.find?_eq_none]
      intro ck hck
      rw [Bool.not_eq_true, List.any_eq_false]
      intro kw hkw
      rw [Bool.not_eq_true]
      exact hnone ck hck kw hkw
    simp only [smart_categorize]
    rw [hfind]
  · intro i h hex hbefore
    have hp : (fun ck => ck.2.any fun kw => strContainsSub (lowerStr description) kw)
        (CATEGORY_KEYWORDS.get ⟨i, h⟩) = true := by
      rw [List.any_eq_true]
      obtain ⟨kw, hkw, hc⟩ := hex
      exact ⟨kw, hkw, hc⟩
    have hb : ∀ j (hj : j < i),
        (fun ck => ck.2.any fun kw => strContainsSub (lowerStr description) kw)
          (CATEGORY_KEYWORDS.get ⟨j, Nat.lt_trans hj h⟩) = false := by
      intro j hj
      rw [List.any_eq_false]
      intro kw hkw
      rw [Bool.not_eq_true]
      exact hbefore j hj kw hkw
    simp only [smart_categorize]
    rw [find?_eq_get_of_first _ _ i h hp hb]

/-- Witness for C6: `book a taxi` contains education's `book` and
transport's `taxi`; transport (index 1) is declared earlier and wins. -/
theorem C6_smart_categorize_witness :
    smart_categorize "book a taxi" = (CATEGORY_KEYWORDS.get ⟨1, by decide⟩).1 :=
  (C6_smart_categorize.1 "book a taxi").2 1 (by decide) (by decide) (by decide)

end ExpenseTracker

namespace ExpenseTracker

/-- The sample variance is never negative. -/
theorem sampleVar_nonneg (l : List ℚ) : 0 ≤ sampleVar l := by
  unfold sampleVar
  split
  · exact le_refl 0
  · apply div_nonneg
    · apply List.sum_nonneg
      intro x hx
      simp only [List.mem_map] at hx
      obtain ⟨a, -, rfl⟩ := hx
      positivity
    · positivity

/-- A list whose squared deviations from `c` sum to zero is constantly
`c`. -/
theorem eq_of_sum_sq_eq_zero (c : ℚ) (l : List ℚ)
    (h : (l.map (fun a => (a - c) ^ 2)).sum = 0) : ∀ a ∈ l, a = c := by
  induction l with
  | nil => simp
  | cons x xs ih =>
    simp only [List.map_cons, List.sum_cons] at h
    have hx2 : 0 ≤ (x - c) ^ 2 := sq_nonneg _
    have hrest : 0 ≤ (xs.map (fun a => (a - c) ^ 2)).sum := by
      apply List.sum_nonneg
      intro y hy
      simp only [List.mem_map] at hy
      obtain ⟨a, -, rfl⟩ := hy
      positivity
    have hx : (x - c) ^ 2 = 0 := by linarith
    have hs : (xs.map (fun a => (a - c) ^ 2)).sum = 0 := by linarith
    intro a ha
    rcases List.mem_cons.mp ha with rfl | ha'
    · have hz : a - c = 0 := pow_eq_zero_iff two_ne_zero |>.mp hx
      linarith
    · exact ih hs a ha'

/-- Zero sample variance on a list of two or more values means every
value equals the mean. -/
theorem sampleVar_eq_zero_all_eq (l : List ℚ) (hn : 2 ≤ l.length)
    (h : sampleVar l = 0) : ∀ a ∈ l, a = mean l := by
  unfold sampleVar at h
  rw [if_neg (by omega)] at h
  rcases div_eq_zero_iff.mp h with h0 | h0
  · exact eq_of_sum_sq_eq_zero _ _ h0
  · exact absurd h0 (Nat.cast_ne_zero.mpr (by omega))

/-- The square-free anomaly test is exactly the source's
`stdev > 0 and amount > mean + 2 * stdev` with `stdev = √v`. -/
theorem isAnomalous_iff_sqrt (a m v : ℚ) (hv : 0 ≤ v) :
    isAnomalous a m v = true ↔
      0 < Real.sqrt (v : ℝ) ∧ (m : ℝ) + 2 * Real.sqrt (v : ℝ) < (a : ℝ) := by
  have hv' : (0 : ℝ) ≤ (v : ℝ) := by exact_mod_cast hv
  have hsq : Real.sqrt (v : ℝ) ^ 2 = (v : ℝ) := Real.sq_sqrt hv'
  have hnn : (0 : ℝ) ≤ Real.sqrt (v : ℝ) := Real.sqrt_nonneg _
  unfold isAnomalous
  simp only [Bool.and_eq_true, decide_eq_true_eq]
  constructor
  · rintro ⟨⟨hv0, hma⟩, h4⟩
    have hv0' : (0 : ℝ) < (v : ℝ) := by exact_mod_cast hv0
    have hma' : (m : ℝ) < (a : ℝ) := by exact_mod_cast hma
    have h4' : 4 * (v : ℝ) < ((a : ℝ) - (m : ℝ)) ^ 2 := by exact_mod_cast h4
    have hpos : 0 < Real.sqrt (v : ℝ) := Real.sqrt_pos.mpr hv0'
    refine ⟨hpos, ?_⟩
    nlinarith [hsq, hma', h4', hpos]
  · rintro ⟨hpos, hlt⟩
    have hv0' : (0 : ℝ) < (v : ℝ) := Real.sqrt_pos.mp hpos
    have hv0 : (0 : ℚ) < v := by exact_mod_cast hv0'
    have hma' : (m : ℝ) < (a : ℝ) := by nlinarith [hpos, hnn]
    have h4' : 4 * (v : ℝ) < ((a : ℝ) - (m : ℝ)) ^ 2 := by nlinarith [hsq, hpos]
    have hma : m < a := by exact_mod_cast hma'
    have h4 : 4 * v < (a - m) ^ 2 := by exact_mod_cast h4'
    exact ⟨⟨hv0, hma⟩, h4⟩

/-- C2 (amended): with at least 10 expenses, an item is flagged if and
only if it lies among the 20 most-recent expenses and its amount is
STRICTLY greater than mean + 2·stdev (the source's `>`; the claim's `≥`
fails at exact equality, see the counterexample), with mean and
Bessel-corrected stdev taken over all amounts, and the flagged item
carries the reason string built from its amount and the mean, both
rendered to 2 decimal places by `fmt2`. -/
theorem C2_detect_anomalies_amended (es : List Expense) (h10 : 10 ≤ es.length) :
    ∀ x : Anomaly, x ∈ detect_anomalies es ↔
      ∃ e ∈ es.take 20,
        ((mean (es.map (·.amount)) : ℚ) : ℝ) +
            2 * Real.sqrt ((sampleVar (es.map (·.amount)) : ℚ) : ℝ) < (e.amount : ℝ) ∧
        x = ⟨e, anomalyReason e.amount (mean (es.map (·.amount)))⟩ := by
  intro x
  simp only [detect_anomalies]
  rw [if_neg (by omega)]
  rw [List.mem_filterMap]
  constructor
  · rintro ⟨e, he, hfe⟩
    by_cases hA : isAnomalous e.amount (mean (es.map (·.amount)))
        (sampleVar (es.map (·.amount))) = true
    · rw [if_pos hA] at hfe
      have hx := Option.some.inj hfe
      have hiff := (isAnomalous_iff_sqrt _ _ _ (sampleVar_nonneg _)).mp hA
      exact ⟨e, he, hiff.2, hx.symm⟩
    · rw [if_neg hA] at hfe
      exact absurd hfe (by simp)
  · rintro ⟨e, he, hcond, rfl⟩
    refine ⟨e, he, ?_⟩
    have hv := sampleVar_nonneg (es.map (·.amount))
    have hA : isAnomalous e.amount (mean (es.map (·.amount)))
        (sampleVar (es.map (·.amount))) = true := by
      rcases eq_or_lt_of_le hv with h0 | hpos
      · exfalso
        have hall := sampleVar_eq_zero_all_eq (es.map (·.amount))
          (by rw [List.length_map]; omega) h0.symm
        have heq : e.amount = mean (es.map (·.amount)) :=
          hall e.amount (List.mem_map_of_mem _ (List.take_subset _ _ he))
        rw [← h0] at hcond
        rw [Rat.cast_zero, Real.sqrt_zero] at hcond
        have : ((e.amount : ℚ) : ℝ) = ((mean (es.map (·.amount)) : ℚ) : ℝ) := by
          exact_mod_cast heq
        rw [this] at hcond
        linarith
      · exact (isAnomalous_iff_sqrt _ _ _ hv).mpr
          ⟨Real.sqrt_pos.mpr (by exact_mod_cast hpos), hcond⟩
    rw [if_pos hA]

end ExpenseTracker

namespace ExpenseTracker

/-- C2 (counterexample): in `borderlineExpenses` the most recent expense
(amount 32) is among the 20 most-recent, and its amount is ≥ mean +
2·stdev (mean 20, stdev 6, threshold exactly 32) — yet `detect_anomalies`
flags nothing, because the source tests strict `>`, not the claim's `≥`. -/
theorem C2_detect_anomalies_counterexample :
    10 ≤ borderlineExpenses.length ∧
    mkExp 1 32 "2026-10-10" ∈ borderlineExpenses.take 20 ∧
    ((mean (borderlineExpenses.map (·.amount)) : ℚ) : ℝ) +
        2 * Real.sqrt ((sampleVar (borderlineExpenses.map (·.amount)) : ℚ) : ℝ) ≤
      ((mkExp 1 32 "2026-10-10").amount : ℝ) ∧
    detect_anomalies borderlineExpenses = [] := by
  have hmap : borderlineExpenses.map (·.amount) =
      [32, 8, 23, 17, 23, 17, 20, 20, 20, 20] := rfl
  have hm : mean (borderlineExpenses.map (·.amount)) = 20 := by
    rw [hmap]; norm_num [mean]
  have hv : sampleVar (borderlineExpenses.map (·.amount)) = 36 := by
    rw [hmap]; norm_num [sampleVar, mean]
  have hsqrt : Real.sqrt ((36 : ℚ) : ℝ) = 6 := by
    rw [show ((36 : ℚ) : ℝ) = (6 : ℝ) ^ 2 by norm_num, Real.sqrt_sq (by norm_num)]
  have h32 : isAnomalous 32 20 36 = false := by
    have h : ¬ (4 * (36 : ℚ) < ((32 : ℚ) - 20) ^ 2) := by norm_num
    simp [isAnomalous, h]
  have h8 : isAnomalous 8 20 36 = false := by
    have h : ¬ ((20 : ℚ) < 8) := by norm_num
    simp [isAnomalous, h]
  have h23 : isAnomalous 23 20 36 = false := by
    have h : ¬ (4 * (36 : ℚ) < ((23 : ℚ) - 20) ^ 2) := by norm_num
    simp [isAnomalous, h]
  have h17 : isAnomalous 17 20 36 = false := by
    have h : ¬ ((20 : ℚ) < 17) := by norm_num
    simp [isAnomalous, h]
  have h20 : isAnomalous 20 20 36 = false := by
    have h : ¬ ((20 : ℚ) < 20) := by norm_num
    simp [isAnomalous, h]
  refine ⟨by decide, by decide, ?_, ?_⟩
  · rw [hm, hv, hsqrt]
    norm_num [mkExp]
  · simp only [detect_anomalies]
    rw [if_neg (by decide), hm, hv]
    simp [borderlineExpenses, mkExp, h32, h8, h23, h17, h20]

/-- Witness for C2 (amended): in `outlierExpenses` the 100 outlier
(mean 19, stdev √810 < 30) is flagged, and the amended characterization
yields its place among the 20 most-recent with the strict threshold
satisfied. -/
theorem C2_detect_anomalies_amended_witness :
    ∃ e ∈ outlierExpenses.take 20,
      ((mean (outlierExpenses.map (·.amount)) : ℚ) : ℝ) +
          2 * Real.sqrt ((sampleVar (outlierExpenses.map (·.amount)) : ℚ) : ℝ) <
        (e.amount : ℝ) ∧
      (⟨mkExp 1 100 "2026-10-10", anomalyReason 100 19⟩ : Anomaly) =
        ⟨e, anomalyReason e.amount (mean (outlierExpenses.map (·.amount)))⟩ := by
  have hmap : outlierExpenses.map (·.amount) =
      [100, 10, 10, 10, 10, 10, 10, 10, 10, 10] := rfl
  have hm : mean (outlierExpenses.map (·.amount)) = 19 := by
    rw [hmap]; norm_num [mean]
  have hv : sampleVar (outlierExpenses.map (·.amount)) = 810 := by
    rw [hmap]; norm_num [sampleVar, mean]
  have h100 : isAnomalous 100 19 810 = true := by
    simp only [isAnomalous, Bool.and_eq_true, decide_eq_true_eq]
    norm_num
  have h10 : isAnomalous 10 19 810 = false := by
    have h : ¬ ((19 : ℚ) < 10) := by norm_num
    simp [isAnomalous, h]
  have hmem : (⟨mkExp 1 100 "2026-10-10", anomalyReason 100 19⟩ : Anomaly) ∈
      detect_anomalies outlierExpenses := by
    simp only [detect_anomalies]
    rw [if_neg (by decide), hm, hv]
    simp [outlierExpenses, mkExp, h100, h10]
  exact (C2_detect_anomalies_amended outlierExpenses (by decide) _).mp hmem

end ExpenseTracker

namespace ExpenseTracker

/-- C7 (amended): a missing body, a missing amount or description key, a
non-positive amount, or a non-numeric amount STRING is rejected with a
400 error and leaves the database untouched; but a non-numeric amount of
a non-string JSON type (e.g. `null`) raises an uncaught `TypeError`
(Flask's 500), not a 400 — the handler catches only `ValueError` — while
still leaving the database untouched. -/
theorem C7_add_expense_validation (db : DB) (nowIso : String)
    (d : List (String × JVal)) :
    (add_expense_route db nowIso none =
      (.badRequest "Amount and description are required", db)) ∧
    (d = [] ∨ d.lookup "amount" = none ∨ d.lookup "description" = none →
      add_expense_route db nowIso (some d) =
        (.badRequest "Amount and description are required", db)) ∧
    (∀ s, d.lookup "amount" = some (.jstr s) → parseFloat s = none →
      (d.lookup "description").isSome →
      add_expense_route db nowIso (some d) = (.badRequest "Invalid amount format", db)) ∧
    (∀ v q, d.lookup "amount" = some v → pyFloat v = .ok q → q ≤ 0 →
      (d.lookup "description").isSome →
      add_expense_route db nowIso (some d) = (.badRequest "Amount must be positive", db)) ∧
    (∀ v, d.lookup "amount" = some v → pyFloat v = .error .typeError →
      (d.lookup "description").isSome →
      add_expense_route db nowIso (some d) = (.pyError .typeError, db)) := by
  refine ⟨rfl, ?_, ?_, ?_, ?_⟩
  · intro hmiss
    simp only [add_expense_route]
    rw [if_pos]
    rcases hmiss with h | h | h
    · exact Or.inl h
    · exact Or.inr (Or.inl (by rw [h]; rfl))
    · exact Or.inr (Or.inr (by rw [h]; rfl))
  · intro s ha hps hd
    have hguard : ¬(d = [] ∨ (List.lookup "amount" d).isNone = true ∨
        (List.lookup "description" d).isNone = true) := by
      rintro (rfl | h | h)
      · simp at ha
      · rw [ha] at h; simp at h
      · rw [Option.isNone_iff_eq_none] at h
        rw [h] at hd; simp at hd
    simp only [add_expense_route, if_neg hguard, ha, Option.getD_some, pyFloat, hps]
    rw [if_neg (by
      rintro (rfl | h | h)
      · simp at hd
      · simp at h
      · rw [Option.isNone_iff_eq_none] at h; rw [h] at hd; simp at hd)]
  · intro v q ha hq hq0 hd
    have hguard : ¬(d = [] ∨ (List.lookup "amount" d).isNone = true ∨
        (List.lookup "description" d).isNone = true) := by
      rintro (rfl | h | h)
      · simp at ha
      · rw [ha] at h; simp at h
      · rw [Option.isNone_iff_eq_none] at h
        rw [h] at hd; simp at hd
    simp only [add_expense_route, if_neg hguard, ha, Option.getD_some, hq]
    rw [if_pos hq0]
    rw [if_neg (by
      rintro (rfl | h | h)
      · simp at hd
      · simp at h
      · rw [Option.isNone_iff_eq_none] at h; rw [h] at hd; simp at hd)]
  · intro v ha hv hd
    have hguard : ¬(d = [] ∨ (List.lookup "amount" d).isNone = true ∨
        (List.lookup "description" d).isNone = true) := by
      rintro (rfl | h | h)
      · simp at ha
      · rw [ha] at h; simp at h
      · rw [Option.isNone_iff_eq_none] at h
        rw [h] at hd; simp at hd
    simp only [add_expense_route, if_neg hguard, ha, Option.getD_some, hv]
    rw [if_neg (by
      rintro (rfl | h | h)
      · simp at hd
      · simp at h
      · rw [Option.isNone_iff_eq_none] at h; rw [h] at hd; simp at hd)]

/-- C7 (counterexample): the request body
`\x7b"amount": null, "description": "coffee"\x7d` has a non-numeric
amount, yet the handler does not reject it with a 400: `float(None)`
raises a `TypeError`, which the `except ValueError` does not catch, so
the request dies with an uncaught exception (a 500), refuting the claim
that every non-numeric amount yields a 400 rejection. -/
theorem C7_add_expense_validation_counterexample :
    add_expense_route ⟨[], 0, []⟩ "2026-10-12T00:00:00"
        (some [("amount", JVal.jnull), ("description", JVal.jstr "coffee")]) =
      (.pyError PyErr.typeError, ⟨[], 0, []⟩) := rfl

/-- Witness for C7 (amended): the string amount `"abc"` draws the 400
with `Invalid amount format` and leaves the database unchanged. -/
theorem C7_add_expense_validation_witness :
    add_expense_route ⟨[], 0, []⟩ "2026-10-12T00:00:00"
        (some [("amount", JVal.jstr "abc"), ("description", JVal.jstr "x")]) =
      (.badRequest "Invalid amount format", ⟨[], 0, []⟩) :=
  (C7_add_expense_validation ⟨[], 0, []⟩ "2026-10-12T00:00:00"
    [("amount", JVal.jstr "abc"), ("description", JVal.jstr "x")]).2.2.1 "abc"
    (by decide) (by decide) (by decide)

end ExpenseTracker

namespace ExpenseTracker

/-- The running best of the max-by-total fold is the seed or a list
element. -/
theorem foldl_maxBy_mem (l : List (String × ℚ)) (x : String × ℚ) :
    l.foldl (fun best q => if best.2 < q.2 then q else best) x = x ∨
    l.foldl (fun best q => if best.2 < q.2 then q else best) x ∈ l := by
  induction l generalizing x with
  | nil => left; rfl
  | cons y ys ih =>
    simp only [List.foldl_cons]
    rcases ih (if x.2 < y.2 then y else x) with h | h
    · rw [h]
      split
      · right; exact List.mem_cons_self _ _
      · left; rfl
    · right; exact List.mem_cons_of_mem _ h

/-- The max-by-total fold dominates its seed and every list element. -/
theorem foldl_maxBy_ge (l : List (String × ℚ)) (x : String × ℚ) :
    x.2 ≤ (l.foldl (fun best q => if best.2 < q.2 then q else best) x).2 ∧
    ∀ q ∈ l, q.2 ≤ (l.foldl (fun best q => if best.2 < q.2 then q else best) x).2 := by
  induction l generalizing x with
  | nil => exact ⟨le_refl _, by simp⟩
  | cons y ys ih =>
    simp only [List.foldl_cons]
    obtain ⟨h1, h2⟩ := ih (if x.2 < y.2 then y else x)
    constructor
    · refine le_trans ?_ h1
      split
      · next h => exact le_of_lt h
      · exact le_refl _
    · intro q hq
      rcases List.mem_cons.mp hq with rfl | hq'
      · refine le_trans ?_ h1
        split
        · exact le_refl _
        · next h => exact le_of_not_lt h
      · exact h2 q hq'

/-- A nonempty ledger has a nonempty per-category grouping. -/
theorem spendingByCategory_ne_nil (es : List Expense) (h : es ≠ []) :
    spendingByCategory es ≠ [] := by
  rcases es with _ | ⟨e, rest⟩
  · exact absurd rfl h
  · simp [spendingByCategory, firstKeys]

/-- A filter result is nonempty exactly when some element passes. -/
theorem filter_ne_nil_iff {α : Type} (p : α → Bool) (l : List α) :
    l.filter p ≠ [] ↔ ∃ a ∈ l, p a = true := by
  induction l with
  | nil => simp
  | cons x xs ih =>
    by_cases hx : p x = true
    · simp [List.filter_cons, hx]
    · simp only [List.filter_cons, hx]
      rw [Bool.not_eq_true] at hx
      simp [hx, ih]

end ExpenseTracker

namespace ExpenseTracker

/-- `maxByTotal` picks an element of the list. -/
theorem maxByTotal_mem (l : List (String × ℚ)) (p : String × ℚ)
    (h : maxByTotal l = some p) : p ∈ l := by
  cases l with
  | nil => simp [maxByTotal] at h
  | cons x rest =>
    simp only [maxByTotal, Option.some.injEq] at h
    subst h
    rcases foldl_maxBy_mem rest x with h' | h'
    · rw [h']; exact List.mem_cons_self _ _
    · exact List.mem_cons_of_mem _ h'

/-- `maxByTotal` dominates every element's total. -/
theorem maxByTotal_ge (l : List (String × ℚ)) (p : String × ℚ)
    (h : maxByTotal l = some p) : ∀ q ∈ l, q.2 ≤ p.2 := by
  cases l with
  | nil => simp [maxByTotal] at h
  | cons x rest =>
    simp only [maxByTotal, Option.some.injEq] at h
    subst h
    intro q hq
    rcases List.mem_cons.mp hq with rfl | hq'
    · exact (foldl_maxBy_ge rest q).1
    · exact (foldl_maxBy_ge rest x).2 q hq'

/-- C8: `generate_insights` emits at most three insights, in the fixed
order top-category (rank 0), weekly trend (rank 1), savings (rank 2).
The top-category insight appears iff a category aggregate exists and
reports a category of maximal total, its total, and its percentage of
the overall spend; the weekly-trend insight appears iff some expense is
dated inside the trailing-7-day window and reports the window's sum and
that sum divided by 7; the savings insight appears iff more than 5
expenses exist and reports mean amount × 0.1 × 30. -/
theorem C8_generate_insights (es : List Expense) (weekAgo : String) :
    (generate_insights es weekAgo).length ≤ 3 ∧
    (generate_insights es weekAgo).Pairwise (fun a b => insightRank a < insightRank b) ∧
    ((∃ i ∈ generate_insights es weekAgo, insightRank i = 0) ↔
      spendingByCategory es ≠ []) ∧
    ((∃ i ∈ generate_insights es weekAgo, insightRank i = 1) ↔
      ∃ e ∈ es, strLtB weekAgo e.date = true) ∧
    ((∃ i ∈ generate_insights es weekAgo, insightRank i = 2) ↔ 5 < es.length) ∧
    (∀ n t p, Insight.category_insight n t p ∈ generate_insights es weekAgo →
      (n, t) ∈ spendingByCategory es ∧ (∀ q ∈ spendingByCategory es, q.2 ≤ t) ∧
      p = t / ((spendingByCategory es).map (·.2)).sum * 100) ∧
    (∀ T A, Insight.trend T A ∈ generate_insights es weekAgo →
      T = ((es.filter (fun e => strLtB weekAgo e.date)).map (·.amount)).sum ∧
      A = T / 7) ∧
    (∀ P, Insight.savings P ∈ generate_insights es weekAgo →
      P = mean (es.map (·.amount)) * (1 / 10) * 30) := by
  by_cases hes : es = []
  · subst hes
    simp [generate_insights, spendingByCategory, firstKeys]
  · have hscne : spendingByCategory es ≠ [] := spendingByCategory_ne_nil es hes
    obtain ⟨M, hmax⟩ : ∃ M, maxByTotal (spendingByCategory es) = some M := by
      rcases hsc : spendingByCategory es with _ | ⟨p0, ps⟩
      · exact absurd hsc hscne
      · exact ⟨_, rfl⟩
    have hMmem : M ∈ spendingByCategory es := maxByTotal_mem _ _ hmax
    have hMge : ∀ q ∈ spendingByCategory es, q.2 ≤ M.2 := maxByTotal_ge _ _ hmax
    have hgen : generate_insights es weekAgo =
        [Insight.category_insight M.1 M.2
          (M.2 / ((spendingByCategory es).map (·.2)).sum * 100)] ++
        (if es.filter (fun e => strLtB weekAgo e.date) = [] then []
         else [Insight.trend
            (((es.filter (fun e => strLtB weekAgo e.date)).map (·.amount)).sum)
            ((((es.filter (fun e => strLtB weekAgo e.date)).map (·.amount)).sum) / 7)]) ++
        (if 5 < es.length then
          [Insight.savings (mean (es.map (·.amount)) * (1 / 10) * 30)] else []) := by
      simp only [generate_insights, if_neg hes]
      rw [hmax]
    rw [hgen]
    refine ⟨?_, ?_, ?_, ?_, ?_, ?_, ?_, ?_⟩
    · split <;> split <;> simp
    · split <;> split <;> simp [insightRank]
    · refine iff_of_true ⟨_, List.mem_append_left _
        (List.mem_append_left _ (List.mem_cons_self _ _)), rfl⟩ hscne
    · constructor
      · rintro ⟨i, hi, hr⟩
        rcases List.mem_append.mp hi with h1 | h2
        · rcases List.mem_append.mp h1 with hc | ht
          · rw [List.mem_singleton] at hc
            subst hc
            simp [insightRank] at hr
          · split at ht
            · simp at ht
            · next hne =>
                exact (filter_ne_nil_iff _ _).mp hne
        · split at h2
          · rw [List.mem_singleton] at h2
            subst h2
            simp [insightRank] at hr
          · simp at h2
      · intro hex
        have hne := (filter_ne_nil_iff _ _).mpr hex
        refine ⟨Insight.trend
          (((es.filter (fun e => strLtB weekAgo e.date)).map (·.amount)).sum)
          ((((es.filter (fun e => strLtB weekAgo e.date)).map (·.amount)).sum) / 7),
          List.mem_append_left _ (List.mem_append_right _ ?_), rfl⟩
        rw [if_neg hne]
        exact List.mem_cons_self _ _
    · constructor
      · rintro ⟨i, hi, hr⟩
        rcases List.mem_append.mp hi with h1 | h2
        · rcases List.mem_append.mp h1 with hc | ht
          · rw [List.mem_singleton] at hc
            subst hc
            simp [insightRank] at hr
          · split at ht
            · simp at ht
            · rw [List.mem_singleton] at ht
              subst ht
              simp [insightRank] at hr
        · split at h2
          · next h5 => exact h5
          · simp at h2
      · intro h5
        refine ⟨Insight.savings (mean (es.map (·.amount)) * (1 / 10) * 30),
          List.mem_append_right _ ?_, rfl⟩
        rw [if_pos h5]
        exact List.mem_cons_self _ _
    · intro n t p hmem
      rcases List.mem_append.mp hmem with h1 | h2
      · rcases List.mem_append.mp h1 with hc | ht
        · rw [List.mem_singleton] at hc
          injection hc with hn ht' hp
          subst hn; subst ht'; subst hp
          refine ⟨?_, hMge, rfl⟩
          rw [Prod.mk.eta]
          exact hMmem
        · split at ht
          · simp at ht
          · rw [List.mem_singleton] at ht
            exact absurd ht (by simp)
      · split at h2
        · rw [List.mem_singleton] at h2
          exact absurd h2 (by simp)
        · simp at h2
    · intro T A hmem
      rcases List.mem_append.mp hmem with h1 | h2
      · rcases List.mem_append.mp h1 with hc | ht
        · rw [List.mem_singleton] at hc
          exact absurd hc (by simp)
        · split at ht
          · simp at ht
          · rw [List.mem_singleton] at ht
            injection ht with hT hA
            subst hT
            exact ⟨rfl, hA⟩
      · split at h2
        · rw [List.mem_singleton] at h2
          exact absurd h2 (by simp)
        · simp at h2
    · intro P hmem
      rcases List.mem_append.mp hmem with h1 | h2
      · rcases List.mem_append.mp h1 with hc | ht
        · rw [List.mem_singleton] at hc
          exact absurd hc (by simp)
        · split at ht
          · simp at ht
          · rw [List.mem_singleton] at ht
            exact absurd ht (by simp)
      · split at h2
        · rw [List.mem_singleton] at h2
          simpa using h2
        · simp at h2

end ExpenseTracker

namespace ExpenseTracker

/-- Witness for C8: with 6 expenses the savings insight is emitted. -/
theorem C8_generate_insights_witness :
    ∃ i ∈ generate_insights sixExpenses "2026-10-05T00:00:00", insightRank i = 2 :=
  (C8_generate_insights sixExpenses "2026-10-05T00:00:00").2.2.2.2.1.mpr (by decide)

end ExpenseTracker
